import Mathlib

/-!
Verification development for the ticket and commit correlation engine of
the repository (file backend/jira-git_mcp-server/project_tracker.py).

The engine is embedded shallowly:

* Pure string manipulation from the source is translated to structural
  Lean functions over lists of characters (the built-in String loops are
  avoided so that every definition reduces inside the kernel).
* JSON values that flow out of the classification oracle are modelled by
  the inductive type PyVal; dictionary indexing, the dict get method with
  a default, the membership test of the in operator and iteration follow
  the dynamic semantics of the source language (a KeyError, TypeError or
  AttributeError is an Except.error value).
* Network calls (the ticket tracker, the code host, the oracle) are
  modelled by explicit response values handed to the embedded functions:
  a response value describes what the external call returned, and the
  embedded code is exactly the processing the source applies to it.
* Records returned by the code host are modelled in the shape the source
  reads them (string fields after the defaulting performed by the chained
  get calls with default values).
-/

/-- A JSON-like dynamic value as produced by json.loads in the source. -/
inductive PyVal where
  | none : PyVal
  | bool (b : Bool) : PyVal
  | int (n : Int) : PyVal
  | str (s : String) : PyVal
  | list (xs : List PyVal) : PyVal
  | dict (kvs : List (String × PyVal)) : PyVal

/-- Dictionary indexing obj[k]: a KeyError when the key is absent, a
TypeError when the value is not a dictionary. -/
def pyGetItem (v : PyVal) (k : String) : Except String PyVal :=
  match v with
  | .dict kvs =>
    match kvs.lookup k with
    | some x => .ok x
    | Option.none => .error ("KeyError: " ++ k)
  | _ => .error "TypeError: value is not subscriptable by a string"

/-- The dict get method obj.get k d: the default when the key is absent, an
AttributeError when the value is not a dictionary. -/
def pyGet (v : PyVal) (k : String) (d : PyVal) : Except String PyVal :=
  match v with
  | .dict kvs => .ok ((kvs.lookup k).getD d)
  | _ => .error "AttributeError: value has no get method"

/-- Iteration over a value: a list yields its elements, a dictionary yields
its keys, a string yields its characters as one-character strings, anything
else raises a TypeError. -/
def pyIter (v : PyVal) : Except String (List PyVal) :=
  match v with
  | .list xs => .ok xs
  | .dict kvs => .ok (kvs.map (fun kv => PyVal.str kv.fst))
  | .str s => .ok (s.toList.map (fun c => PyVal.str (String.mk [c])))
  | _ => .error "TypeError: value is not iterable"

/-- Equality test between a dynamic value and a string: true exactly when
the value is that string (string equality with any other type is False). -/
def pyEqStr (v : PyVal) (s : String) : Bool :=
  match v with
  | .str t => t == s
  | _ => false

/-- needle.isPrefixOf style containment of one character list in another:
the semantics of the in operator on strings (an empty needle is contained
in everything). -/
def charsContain (needle : List Char) : List Char → Bool
  | [] => needle.isEmpty
  | c :: cs => needle.isPrefixOf (c :: cs) || charsContain needle cs

/-- The in operator on strings: substring containment. -/
def pyInStr (needle haystack : String) : Bool :=
  charsContain needle.toList haystack.toList

/-- str.lower of the source, on the ASCII range. -/
def pyLower (s : String) : String :=
  String.mk (s.toList.map Char.toLower)

/-- The first n characters of a string, the slicing s[:n] of the source. -/
def pyTake (s : String) (n : Nat) : String :=
  String.mk (s.toList.take n)

/-- ASCII whitespace for the strip calls of the source. -/
def asciiWhitespace (c : Char) : Bool :=
  c == ' ' || c == '\t' || c == '\x0a' || c == '\x0d'

/-- str.strip of the source: whitespace removed from both ends. -/
def pyStrip (s : String) : String :=
  String.mk (((s.toList.dropWhile asciiWhitespace).reverse.dropWhile asciiWhitespace).reverse)

/-- Splitting a character list at every occurrence of a separator
character; str.split of the source for a one-character separator. -/
def splitChars (sep : Char) : List Char → List (List Char)
  | [] => [[]]
  | c :: cs =>
    let r := splitChars sep cs
    if c == sep then [] :: r
    else
      match r with
      | [] => [[c]]
      | h :: t => (c :: h) :: t

/-- str.split of the source for a one-character separator. -/
def pySplit (s : String) (sep : Char) : List String :=
  (splitChars sep s.toList).map (fun l => String.mk l)

/-- A character membership test, the in operator for a character in a
string. -/
def pyHasChar (s : String) (c : Char) : Bool :=
  s.toList.contains c

/-- A normalized ticket record, the issue_summary dictionary built by
get_project_issues_by_assignee in the source (all values are strings and
every key is present, so a structure is a faithful shape). -/
structure Ticket where
  key : String
  summary : String
  status : String
  assignee : String
  assignee_email : String
  issue_type : String
  priority : String
deriving Repr, DecidableEq

/-- A normalized commit record, the commit_data dictionary built by
get_commits_for_repos in the source; sha holds the 7 character short form
and full_sha the complete identifier. -/
structure Commit where
  repo : String
  full_name : String
  sha : String
  message : String
  author_name : String
  author_email : String
  date : String
  full_sha : String
deriving Repr, DecidableEq

/-- A raw commit record as the code host returns it, after the defaulting
the source applies with chained get calls (a missing field is the empty
string). -/
structure RawCommit where
  sha : String
  message : String
  author_name : String
  author_email : String
  date : String
deriving Repr, DecidableEq

/-- What one list_commits call followed by safe_parse produced for one
repository: an exception, a string response (the not found and failure
texts), a value of an unexpected shape, or a list of commit records. -/
inductive CommitFetchOutcome where
  | raise : CommitFetchOutcome
  | strResp (s : String) : CommitFetchOutcome
  | otherResp : CommitFetchOutcome
  | commits (cs : List RawCommit) : CommitFetchOutcome

/-- The outcome of one oracle exchange in analyze_assignee_progress:
noClient models a missing genai client (no API key), raise models the
generate_content call or json.loads raising, and value carries the value
json.loads produced from the response text. -/
inductive OracleResponse where
  | noClient : OracleResponse
  | raise : OracleResponse
  | value (v : PyVal) : OracleResponse

/-- The oracle behaviour for an analysis run: what the exchange for a given
assignee, ticket batch and commit batch returns. -/
def Oracle : Type :=
  String → List Ticket → List Commit → OracleResponse

/-- The static JIRA_TO_GITHUB_MAP table of the source. -/
def JIRA_TO_GITHUB_MAP : List (String × List String) :=
  [("AL", ["InfiniumDevIO/Ample-Frontend", "InfiniumDevIO/Ample-Backend"]),
   ("BV3", ["InfiniumDevIO/BlueValley_Conversational_AI_Demo"]),
   ("CB", ["InfiniumDevIO/Casagrand-Banglore"]),
   ("CAS", ["InfiniumDevIO/Casagrand_Backend", "InfiniumDevIO/Casasgrand", "InfiniumDevIO/casagrand-blr-backend"]),
   ("C3", ["InfiniumDevIO/Centroid"]),
   ("CEN", ["InfiniumDevIO/Century"]),
   ("CE", ["InfiniumDevIO/Century"]),
   ("CXDT2", ["InfiniumDevIO/circle-design-frontend", "InfiniumDevIO/starter-digital-tool-premium"]),
   ("D3", ["InfiniumDevIO/DRA"]),
   ("DI", ["InfiniumDevIO/DRA-Backend"]),
   ("GMM", ["InfiniumDevIO/Million_minds", "InfiniumDevIO/Million_Minds-Backend"]),
   ("GERA", ["InfiniumDevIO/Gera-Frontend", "InfiniumDevIO/Gera-Backend"]),
   ("G3", ["InfiniumDevIO/Gera-360-Viewer"]),
   ("KP", ["InfiniumDevIO/Kolte-Patil"]),
   ("PRIM", ["InfiniumDevIO/Primarc", "InfiniumDevIO/Primarc-Backend"]),
   ("RM", ["InfiniumDevIO/Rajyash"]),
   ("RAT", ["InfiniumDevIO/Ratna"]),
   ("RAT3D", ["InfiniumDevIO/Ratna"]),
   ("SC", ["InfiniumDevIO/Centroid"]),
   ("SKYI", ["InfiniumDevIO/SkyI", "InfiniumDevIO/skyi-Backend"])]

/-- The standard reasoning text of the fallback path in the source. -/
def fallbackReasoning : String :=
  "LLM analysis unavailable - manual review required"

/-- One element of the list _fallback_analysis builds for a ticket. -/
def fallbackObj (t : Ticket) : PyVal :=
  .dict [("ticket_key", .str t.key),
         ("summary", .str t.summary),
         ("status", .str "PENDING"),
         ("confidence", .int 0),
         ("reasoning", .str fallbackReasoning),
         ("matched_commits", .list []),
         ("match_types", .list [])]

/-- _fallback_analysis of GeminiProgressAnalyzer: one PENDING record per
ticket of the batch. -/
def fallback_analysis (tickets : List Ticket) : PyVal :=
  .list (tickets.map fallbackObj)

/-- analyze_assignee_progress of GeminiProgressAnalyzer. With no client the
fallback is returned at once; the try block covers the oracle call and the
json.loads of its text, so a raise from either also yields the fallback;
a successfully decoded value is returned as is, with no shape validation.
The assignee name, the commits and the project key only shape the prompt
sent to the oracle, which the OracleResponse argument models. -/
def analyze_assignee_progress (assignee_name : String) (tickets : List Ticket)
    (commits : List Commit) (project_key : String) (resp : OracleResponse) : PyVal :=
  match assignee_name, commits, project_key, resp with
  | _, _, _, .noClient => fallback_analysis tickets
  | _, _, _, .raise => fallback_analysis tickets
  | _, _, _, .value v => v

/-- One resolved matched commit entry built inside analyze_project: the
commit record together with the score (the confidence the oracle stated)
and the match_type value copied from the oracle object. -/
structure MatchedCommitObj where
  commit : Commit
  score : PyVal
  match_type : PyVal

/-- One element of the matches list analyze_project builds per oracle
object: the MatchResult of the specification. status, confidence and
reasoning are copied from the oracle object unvalidated, hence dynamic. -/
structure Match where
  ticket : Ticket
  status : PyVal
  confidence : PyVal
  reasoning : PyVal
  matched_commits : List MatchedCommitObj
  total_matches : Nat

/-- The summary dictionary computed per assignee in analyze_project. -/
structure Summary where
  total_tickets : Nat
  completed : Nat
  likely_done : Nat
  in_progress : Nat
  pending : Nat
  total_commits : Nat
deriving Repr, DecidableEq

/-- The per assignee record analyze_project stores into analysis_results. -/
structure AssigneeAnalysis where
  tickets : List Ticket
  commits : List Commit
  matchList : List Match
  summary : Summary

/-- The loop of analyze_project that resolves the short shas listed by the
oracle back to commit records: an unresolvable sha appends nothing; the
generator passed to next is lazy, so with an empty commit batch the sha is
never inspected; a resolvable sha reads the confidence (KeyError when it is
absent) and the match_types value of the oracle object. -/
def resolveMatched (obj : PyVal) (commits : List Commit) :
    List PyVal → Except String (List MatchedCommitObj)
  | [] => .ok []
  | v :: rest =>
    match commits with
    | [] => resolveMatched obj commits rest
    | _ :: _ =>
      match v with
      | .str s =>
        match commits.find? (fun c => pyInStr s c.sha) with
        | some c =>
          match pyGetItem obj "confidence" with
          | .error e => .error e
          | .ok conf =>
            match pyGet obj "match_types" (.list []) with
            | .error e => .error e
            | .ok mt =>
              match resolveMatched obj commits rest with
              | .error e => .error e
              | .ok ms => .ok ({ commit := c, score := conf, match_type := mt } :: ms)
        | Option.none => resolveMatched obj commits rest
      | _ => .error "TypeError: the in operator requires a string"

/-- The body of the conversion loop of analyze_project for one oracle
object: resolve the ticket by key (the generator passed to next is lazy, so
with an empty ticket batch the object is never indexed), skip the object
when no ticket of the batch carries the key, resolve the listed shas and
read status, confidence and reasoning from the object. -/
def buildMatchOne (issues : List Ticket) (commits : List Commit) (obj : PyVal) :
    Except String (Option Match) :=
  match issues with
  | [] => .ok Option.none
  | _ :: _ =>
    match pyGetItem obj "ticket_key" with
    | .error e => .error e
    | .ok tk =>
      match issues.find? (fun t => pyEqStr tk t.key) with
      | Option.none => .ok Option.none
      | some ticket =>
        match pyGet obj "matched_commits" (.list []) with
        | .error e => .error e
        | .ok mcv =>
          match pyIter mcv with
          | .error e => .error e
          | .ok mcl =>
            match resolveMatched obj commits mcl with
            | .error e => .error e
            | .ok mobjs =>
              match pyGetItem obj "status", pyGetItem obj "confidence",
                    pyGetItem obj "reasoning" with
              | .ok st, .ok conf, .ok reas =>
                .ok (some { ticket := ticket, status := st, confidence := conf,
                            reasoning := reas, matched_commits := mobjs,
                            total_matches := mobjs.length })
              | .error e, _, _ => .error e
              | _, .error e, _ => .error e
              | _, _, .error e => .error e

/-- The conversion loop of analyze_project over a decoded list of oracle
objects. -/
def buildMatchesList (issues : List Ticket) (commits : List Commit) :
    List PyVal → Except String (List Match)
  | [] => .ok []
  | obj :: rest =>
    match buildMatchOne issues commits obj with
    | .error e => .error e
    | .ok Option.none => buildMatchesList issues commits rest
    | .ok (some m) =>
      match buildMatchesList issues commits rest with
      | .error e => .error e
      | .ok ms => .ok (m :: ms)

/-- The conversion step of analyze_project applied to whatever
analyze_assignee_progress returned: the for statement iterates the value,
a TypeError when it is not iterable. -/
def buildMatches (issues : List Ticket) (commits : List Commit) (llmResults : PyVal) :
    Except String (List Match) :=
  match pyIter llmResults with
  | .error e => .error e
  | .ok objs => buildMatchesList issues commits objs

/-- The summary dictionary of analyze_project: counts of match statuses by
string equality with the four tier names, plus the sizes of the ticket and
commit batches. -/
def mkSummary (issues : List Ticket) (matchList : List Match) (commits : List Commit) : Summary :=
  { total_tickets := issues.length,
    completed := (matchList.filter (fun m => pyEqStr m.status "COMPLETED")).length,
    likely_done := (matchList.filter (fun m => pyEqStr m.status "LIKELY_DONE")).length,
    in_progress := (matchList.filter (fun m => pyEqStr m.status "IN_PROGRESS")).length,
    pending := (matchList.filter (fun m => pyEqStr m.status "PENDING")).length,
    total_commits := commits.length }


/-- The commit_data dictionary built in get_commits_for_repos: the short
sha is the 7 character slice, the repository name is the part after the
slash of the full name. -/
def mkCommitData (repo full_name : String) (rc : RawCommit) : Commit :=
  { repo := repo, full_name := full_name, sha := pyTake rc.sha 7,
    message := rc.message, author_name := rc.author_name,
    author_email := rc.author_email, date := rc.date, full_sha := rc.sha }

/-- The author filter of get_commits_for_repos: a truthy assignee_email
keeps a commit exactly when the lowered email is a substring of the lowered
author email of the commit; None and the empty string are falsy, so every
commit is appended. -/
def emailFilter (assignee_email : Option String) (cds : List Commit) : List Commit :=
  match assignee_email with
  | Option.none => cds
  | some e =>
    if e == "" then cds
    else cds.filter (fun cd => pyInStr (pyLower e) (pyLower cd.author_email))

/-- The body of the repository loop of get_commits_for_repos for one full
name: a name that does not split as owner slash repo is skipped (the
ValueError of the unpacking is caught); an exception while fetching or
parsing skips the repository; a string or otherwise unexpected response is
logged and contributes nothing; a list response is normalized and filtered.
A raise in the middle of the normalization loop of the source keeps the
commits already appended; such a run is represented by a commits outcome
carrying the prefix that was processed. -/
def repoCommits (fetch : String → CommitFetchOutcome) (assignee_email : Option String)
    (full_name : String) : List Commit :=
  let parts := pySplit full_name '/'
  if parts.length != 2 then []
  else
    match fetch full_name with
    | .raise => []
    | .strResp _ => []
    | .otherResp => []
    | .commits cs =>
      emailFilter assignee_email (cs.map (mkCommitData (parts.getD 1 "") full_name))

/-- get_commits_for_repos of DynamicProjectTracker: concatenation over the
mapped repositories in order. The limit argument of the source is part of
the external request and is absorbed by the fetch behaviour. -/
def get_commits_for_repos (fetch : String → CommitFetchOutcome)
    (repo_full_names : List String) (assignee_email : Option String) : List Commit :=
  match repo_full_names with
  | [] => []
  | fn :: rest =>
    repoCommits fetch assignee_email fn ++ get_commits_for_repos fetch rest assignee_email

/-- A raw assignee object within a tracker issue: emailAddress and
displayName as present or absent keys. A falsy assignee value (absent key,
None, an empty object) is the none case. -/
structure RawAssignee where
  emailAddress : Option String
  displayName : Option String
deriving Repr, DecidableEq

/-- A raw issue record of the tracker after json decoding, at the
granularity the source reads it: the key field (the embedding assumes the
tracker supplies it, the source would store None otherwise), the summary
and the nested name fields as optional, defaulted on extraction exactly as
the chained get calls of the source do. -/
structure RawIssue where
  key : String
  summary : Option String
  status_name : Option String
  assignee : Option RawAssignee
  issuetype_name : Option String
  priority_name : Option String
deriving Repr, DecidableEq

/-- The grouping key of get_project_issues_by_assignee: emailAddress when
present and truthy, else displayName with the Unassigned default, else the
Unassigned sentinel. -/
def assigneeKey (a : Option RawAssignee) : String :=
  match a with
  | Option.none => "Unassigned"
  | some ai =>
    match ai.emailAddress with
    | some e => if e == "" then ai.displayName.getD "Unassigned" else e
    | Option.none => ai.displayName.getD "Unassigned"

/-- The issue_summary dictionary of get_project_issues_by_assignee with the
defaults of the source. -/
def mkTicket (i : RawIssue) : Ticket :=
  { key := i.key,
    summary := i.summary.getD "No summary",
    status := i.status_name.getD "Unknown",
    assignee :=
      match i.assignee with
      | some ai => ai.displayName.getD "Unassigned"
      | Option.none => "Unassigned",
    assignee_email :=
      match i.assignee with
      | some ai => ai.emailAddress.getD ""
      | Option.none => "",
    issue_type := i.issuetype_name.getD "Unknown",
    priority := i.priority_name.getD "None" }

/-- Appending one ticket under its assignee key, preserving first insertion
order as the defaultdict of the source does. -/
def groupInsert (k : String) (t : Ticket) :
    List (String × List Ticket) → List (String × List Ticket)
  | [] => [(k, [t])]
  | (k2, ts) :: rest =>
    if k2 == k then (k2, ts ++ [t]) :: rest else (k2, ts) :: groupInsert k t rest

/-- The grouping loop of get_project_issues_by_assignee. -/
def groupIssues (xs : List RawIssue) : List (String × List Ticket) :=
  xs.foldl (fun acc i => groupInsert (assigneeKey i.assignee) (mkTicket i) acc) []

/-- One line of the plain text issue table, as _parse_jira_string_response
reads it: key before the first colon, summary before a bracket, status
between square brackets, assignee between parentheses unless it reads
Unassigned. -/
def parseJiraLine (line : String) : Option RawIssue :=
  if pyHasChar line ':' then
    let parts := pySplit line ':'
    if parts.length ≥ 2 then
      let key := pyStrip (parts.headD "")
      let rest := pyStrip (parts.getD 1 "")
      let summary := if pyHasChar rest '[' then pyStrip ((pySplit rest '[').headD "") else rest
      let status :=
        if pyHasChar rest '[' && pyHasChar rest ']' then
          pyStrip ((pySplit ((pySplit rest '[').getD 1 "") ']').headD "")
        else "Unknown"
      let assignee : Option RawAssignee :=
        if pyHasChar rest '(' && pyHasChar rest ')' then
          let nm := pyStrip ((pySplit ((pySplit rest '(').getD 1 "") ')').headD "")
          if nm == "Unassigned" then Option.none
          else some { emailAddress := Option.none, displayName := some nm }
        else Option.none
      some { key := key, summary := some summary, status_name := some status,
             assignee := assignee, issuetype_name := some "Unknown",
             priority_name := some "None" }
    else Option.none
  else Option.none

/-- _parse_jira_string_response of DynamicProjectTracker: the header line is
skipped and each remaining line with a colon becomes one issue record. -/
def parse_jira_string_response (response : String) : List RawIssue :=
  ((pySplit (pyStrip response) '\x0a').drop 1).filterMap parseJiraLine

/-- What the search_issues call of get_project_issues_by_assignee returned,
at the granularity the source branches on: parseFail is a string response
whose json decoding raises (the except block of the source returns an empty
grouping); textTable is a string response that does not start with an open
brace, handed to _parse_jira_string_response; issues is a decoded or direct
structured response, already projected to its issues list (a response that
is not a dictionary or has no issues key is the empty list). -/
inductive TrackerResponse where
  | parseFail : TrackerResponse
  | textTable (s : String) : TrackerResponse
  | issues (xs : List RawIssue) : TrackerResponse

/-- The JQL query string built by get_project_issues_by_assignee. -/
def buildJql (project_key status_filter : String) : String :=
  if status_filter == "active" then
    "project = " ++ project_key ++ " AND statusCategory != Done ORDER BY updated DESC"
  else if status_filter == "all" then
    "project = " ++ project_key ++ " ORDER BY updated DESC"
  else
    "project = " ++ project_key ++ " AND status = \x27" ++ status_filter ++
      "\x27 ORDER BY updated DESC"

/-- get_project_issues_by_assignee of DynamicProjectTracker: the query is
built from the filter and sent to the tracker (the TrackerResponse argument
models the reply to that query); a parse failure returns the empty
grouping, otherwise the issues are grouped by assignee identity. -/
def get_project_issues_by_assignee (project_key status_filter : String)
    (resp : TrackerResponse) : List (String × List Ticket) :=
  let _jql := buildJql project_key status_filter
  match resp with
  | .parseFail => []
  | .textTable s => groupIssues (parse_jira_string_response s)
  | .issues xs => groupIssues xs

/-- The body of the assignee loop of analyze_project: the author email is
the assignee_email of the first ticket (None for an empty batch, which the
grouping never produces); with no fetched commits the Matching Engine is
not invoked and a deterministic all PENDING summary is stored; otherwise
the oracle is consulted and its results converted to matches. -/
def analyzeAssignee (fetch : String → CommitFetchOutcome) (oracle : Oracle)
    (repos : List String) (project_key assignee : String) (issues : List Ticket) :
    Except String AssigneeAnalysis :=
  let assignee_email := issues.head?.map (fun t => t.assignee_email)
  let commits := get_commits_for_repos fetch repos assignee_email
  if commits.isEmpty then
    .ok { tickets := issues, commits := [], matchList := [],
          summary := { total_tickets := issues.length, completed := 0, likely_done := 0,
                       in_progress := 0, pending := issues.length, total_commits := 0 } }
  else
    match buildMatches issues commits
        (analyze_assignee_progress assignee issues commits project_key
          (oracle assignee issues commits)) with
    | .error e => .error e
    | .ok ms =>
      .ok { tickets := issues, commits := commits, matchList := ms,
            summary := mkSummary issues ms commits }

/-- The assignee loop of analyze_project in grouping order; an exception in
one iteration propagates out of analyze_project, as in the source. -/
def analyzeAll (fetch : String → CommitFetchOutcome) (oracle : Oracle)
    (repos : List String) (project_key : String) :
    List (String × List Ticket) → Except String (List (String × AssigneeAnalysis))
  | [] => .ok []
  | (a, issues) :: rest =>
    match analyzeAssignee fetch oracle repos project_key a issues with
    | .error e => .error e
    | .ok r =>
      match analyzeAll fetch oracle repos project_key rest with
      | .error e => .error e
      | .ok rs => .ok ((a, r) :: rs)

/-- The value analyze_project returns: the error dictionary or the full
project analysis (the timestamp field of the source, wall clock output, is
not modelled). -/
inductive ProjectResult where
  | err (msg : String) : ProjectResult
  | analysis (project_key : String) (repositories : List String)
      (assignee_analysis : List (String × AssigneeAnalysis)) : ProjectResult

/-- analyze_project of DynamicProjectTracker: resolve the repository map
first and short circuit to the mapping error; fetch and group the tickets
and short circuit to the no issues error when the grouping is empty;
otherwise analyze every assignee. -/
def analyze_project (tracker : TrackerResponse) (fetch : String → CommitFetchOutcome)
    (oracle : Oracle) (project_key status_filter : String) :
    Except String ProjectResult :=
  let repos := ((JIRA_TO_GITHUB_MAP.lookup project_key).getD [])
  if repos.isEmpty then
    .ok (.err ("No repository mapping found for " ++ project_key))
  else
    let assignee_issues := get_project_issues_by_assignee project_key status_filter tracker
    if assignee_issues.isEmpty then .ok (.err "No issues found")
    else
      match analyzeAll fetch oracle repos project_key assignee_issues with
      | .error e => .error e
      | .ok results => .ok (.analysis project_key repos results)

/-- Constructor for a well-formed oracle classification object of the shape
the prompt requests: the standard seven keys, with the listed short shas as
strings. Used to state properties of the post-processing of oracle
responses. -/
def mkOracleObj (ticket_key summary status : String) (confidence : Int)
    (reasoning : String) (matched_commits : List String) (match_types : PyVal) : PyVal :=
  .dict [("ticket_key", .str ticket_key), ("summary", .str summary),
         ("status", .str status), ("confidence", .int confidence),
         ("reasoning", .str reasoning),
         ("matched_commits", .list (matched_commits.map PyVal.str)),
         ("match_types", match_types)]

/-- Concrete ticket for the cardinality claim. -/
def tkC1 : Ticket :=
  { key := "AL-1", summary := "Fix login button alignment", status := "Open",
    assignee := "Alice", assignee_email := "alice@x.com", issue_type := "Task",
    priority := "High" }

/-- Concrete commit for the cardinality claim. -/
def cmC1 : Commit :=
  { repo := "Ample-Frontend", full_name := "InfiniumDevIO/Ample-Frontend",
    sha := "abc1234", message := "adjusted auth page button styles",
    author_name := "Alice", author_email := "alice@x.com", date := "2025-09-01",
    full_sha := "abc1234def5678" }

/-- Concrete ticket for the oracle error tolerance claim. -/
def tkC3 : Ticket :=
  { key := "AL-3", summary := "Add avatar upload", status := "In Progress",
    assignee := "Alice", assignee_email := "alice@x.com", issue_type := "Story",
    priority := "Medium" }

/-- Concrete commit for the oracle error tolerance claim. -/
def cmC3 : Commit :=
  { repo := "Ample-Backend", full_name := "InfiniumDevIO/Ample-Backend",
    sha := "beef001", message := "avatar endpoint", author_name := "Alice",
    author_email := "alice@x.com", date := "2025-09-02", full_sha := "beef001222" }

/-- Commit fetch behaviour for the missing mapping claim. -/
def fetchC4 : String → CommitFetchOutcome := fun _ => .raise

/-- Oracle behaviour for the missing mapping claim. -/
def oracleC4 : Oracle := fun _ _ _ => .noClient

/-- Commit fetch behaviour for the tracker parse failure claim. -/
def fetchC5 : String → CommitFetchOutcome := fun _ => .raise

/-- Oracle behaviour for the tracker parse failure claim. -/
def oracleC5 : Oracle := fun _ _ _ => .noClient

/-- Commit record with an upper case author email, for the case insensitive
author filter claim. -/
def rcC6a : RawCommit :=
  { sha := "aaa1111bbb", message := "fix header", author_name := "Alice",
    author_email := "Alice@X.COM", date := "2025-09-03" }

/-- Commit record by another author, for the author filter claim. -/
def rcC6b : RawCommit :=
  { sha := "ccc2222ddd", message := "tweak footer", author_name := "Bob",
    author_email := "bob@y.com", date := "2025-09-04" }

/-- Commit fetch behaviour for the author filter claim: one accessible
repository with two commits. -/
def fetchC6 : String → CommitFetchOutcome :=
  fun fn => if fn == "o/r" then .commits [rcC6a, rcC6b] else .raise

/-- Concrete ticket for the zero commit short circuit claim. -/
def tkC7 : Ticket :=
  { key := "AL-7", summary := "Polish settings page", status := "To Do",
    assignee := "Carol", assignee_email := "carol@x.com", issue_type := "Task",
    priority := "Low" }

/-- Commit fetch behaviour for the zero commit short circuit claim: the
repository is not accessible, so zero commits are fetched. -/
def fetchC7 : String → CommitFetchOutcome := fun _ => .strResp "404 not found"

/-- Oracle behaviour for the zero commit short circuit claim; the theorem
shows it is never consulted. -/
def oracleC7 : Oracle := fun _ _ _ => .value (.list [])

/-- Concrete ticket for the unresolvable sha claim. -/
def tkC8 : Ticket :=
  { key := "AL-8", summary := "Wire search box", status := "In Review",
    assignee := "Alice", assignee_email := "alice@x.com", issue_type := "Task",
    priority := "High" }

/-- Concrete commit for the unresolvable sha claim. -/
def cmC8 : Commit :=
  { repo := "r", full_name := "o/r", sha := "abc1234", message := "search box wiring",
    author_name := "Alice", author_email := "alice@x.com", date := "2025-09-05",
    full_sha := "abc1234def" }

/-- Concrete ticket for the confidence band claim. -/
def tkC9 : Ticket :=
  { key := "AL-9", summary := "Migrate emails", status := "Open",
    assignee := "Alice", assignee_email := "alice@x.com", issue_type := "Task",
    priority := "Low" }

/-- Concrete commit for the confidence band claim. -/
def cmC9 : Commit :=
  { repo := "r", full_name := "o/r", sha := "cafe007", message := "migration step",
    author_name := "Alice", author_email := "alice@x.com", date := "2025-09-06",
    full_sha := "cafe007aaa" }

/-- An oracle object with a status outside the four tiers and a confidence
above 100, which the source accepts without validation. -/
def objC9 : PyVal :=
  .dict [("ticket_key", .str "AL-9"), ("summary", .str "Migrate emails"),
         ("status", .str "NONSENSE"), ("confidence", .int 150),
         ("reasoning", .str "overconfident"), ("matched_commits", .list []),
         ("match_types", .list [])]

/-- Unfolding of buildMatchOne on a fallback object: every step except the
ticket lookup reduces definitionally, because the object is a literal
dictionary with an empty matched_commits list. -/
theorem buildMatchOne_fallback_nf (i1 : Ticket) (irest : List Ticket)
    (commits : List Commit) (t : Ticket) :
    buildMatchOne (i1 :: irest) commits (fallbackObj t) =
      match (i1 :: irest).find? (fun x => pyEqStr (PyVal.str t.key) x.key) with
      | Option.none => Except.ok Option.none
      | some tk =>
        Except.ok (some { ticket := tk,
                          status := PyVal.str "PENDING",
                          confidence := PyVal.int 0,
                          reasoning := PyVal.str fallbackReasoning,
                          matched_commits := [],
                          total_matches := 0 }) := rfl

/-- A fallback object for a ticket of the batch always resolves to some
ticket of the batch and yields a PENDING match with no commits. -/
theorem buildMatchOne_fallback (i1 : Ticket) (irest : List Ticket)
    (commits : List Commit) (t : Ticket) (ht : t ∈ i1 :: irest) :
    ∃ t2 ∈ i1 :: irest, buildMatchOne (i1 :: irest) commits (fallbackObj t) =
      Except.ok (some { ticket := t2,
                        status := PyVal.str "PENDING",
                        confidence := PyVal.int 0,
                        reasoning := PyVal.str fallbackReasoning,
                        matched_commits := [],
                        total_matches := 0 }) := by
  have hs : ((i1 :: irest).find? (fun x => pyEqStr (PyVal.str t.key) x.key)).isSome := by
    rw [List.find?_isSome]
    exact ⟨t, ht, by simp [pyEqStr]⟩
  obtain ⟨t2, hfind⟩ := Option.isSome_iff_exists.mp hs
  refine ⟨t2, List.mem_of_find?_eq_some hfind, ?_⟩
  rw [buildMatchOne_fallback_nf, hfind]

/-- The conversion loop on a list of fallback objects for tickets of the
batch raises nothing and yields exactly one PENDING match per object. -/
theorem buildMatchesList_fallback (issues : List Ticket) (commits : List Commit) :
    ∀ ts : List Ticket, (∀ t ∈ ts, t ∈ issues) →
      ∃ ms : List Match,
        buildMatchesList issues commits (ts.map fallbackObj) = .ok ms ∧
        ms.length = ts.length ∧
        ∀ m ∈ ms, m.status = PyVal.str "PENDING" ∧ m.confidence = PyVal.int 0 ∧
          m.reasoning = PyVal.str fallbackReasoning ∧ m.matched_commits = [] ∧
          m.ticket ∈ issues
  | [], _ => ⟨[], rfl, rfl, by simp⟩
  | t :: ts, h => by
    have ht : t ∈ issues := h t (List.mem_cons_self t ts)
    obtain ⟨i1, irest, rfl⟩ : ∃ i1 irest, issues = i1 :: irest := by
      cases issues with
      | nil => exact absurd ht (List.not_mem_nil t)
      | cons a b => exact ⟨a, b, rfl⟩
    obtain ⟨t2, ht2, hone⟩ := buildMatchOne_fallback i1 irest commits t ht
    obtain ⟨ms, hms, hlen, hprop⟩ :=
      buildMatchesList_fallback (i1 :: irest) commits ts
        (fun x hx => h x (List.mem_cons_of_mem t hx))
    refine ⟨{ ticket := t2, status := PyVal.str "PENDING", confidence := PyVal.int 0,
              reasoning := PyVal.str fallbackReasoning, matched_commits := [],
              total_matches := 0 } :: ms, ?_, by simp [hlen], ?_⟩
    · simp only [List.map_cons, buildMatchesList, hone, hms]
    · intro m hm
      rcases List.mem_cons.mp hm with h1 | h2
      · subst h1; exact ⟨rfl, rfl, rfl, rfl, ht2⟩
      · exact hprop m h2

/-- Removing a sha that resolves to no commit of the batch from the
iterated list does not change the resolution loop. -/
theorem resolveMatched_drop (obj : PyVal) (commits : List Commit) (s : String)
    (hno : ∀ c ∈ commits, pyInStr s c.sha = false) :
    ∀ shas : List String,
      resolveMatched obj commits (shas.map PyVal.str) =
        resolveMatched obj commits ((shas.filter (fun x => !(x == s))).map PyVal.str)
  | [] => rfl
  | x :: xs => by
    have ih := resolveMatched_drop obj commits s hno xs
    by_cases hx : x = s
    · subst hx
      cases commits with
      | nil =>
        simp only [List.map_cons, resolveMatched, List.filter]
        simp [beq_self_eq_true, ih]
      | cons c cs =>
        have hfind : (c :: cs).find? (fun c2 => pyInStr x c2.sha) = Option.none := by
          rw [List.find?_eq_none]
          intro a ha
          simp [hno a ha]
        simp only [List.map_cons, resolveMatched, hfind, List.filter]
        simp [beq_self_eq_true, ih]
    · have hbx : (x == s) = false := beq_eq_false_iff_ne.mpr hx
      cases commits with
      | nil =>
        simp only [List.map_cons, resolveMatched, List.filter, hbx]
        simp [resolveMatched, ih]
      | cons c cs =>
        simp only [List.map_cons, List.filter, hbx]
        cases hf : (c :: cs).find? (fun c2 => pyInStr x c2.sha) with
        | none => simp [resolveMatched, hf, ih]
        | some c2 => simp [resolveMatched, hf, ih]

/-- On a well-formed oracle object the resolution loop never raises: the
confidence key is present and the match_types key is read with a default. -/
theorem resolveMatched_mkOracleObj_ok (k su st : String) (conf : Int) (reas : String)
    (shas0 : List String) (mts : PyVal) (commits : List Commit) :
    ∀ shas : List String, ∃ mobjs : List MatchedCommitObj,
      resolveMatched (mkOracleObj k su st conf reas shas0 mts) commits (shas.map PyVal.str) =
        .ok mobjs
  | [] => ⟨[], rfl⟩
  | x :: xs => by
    obtain ⟨ms, ih⟩ := resolveMatched_mkOracleObj_ok k su st conf reas shas0 mts commits xs
    cases commits with
    | nil => exact ⟨ms, by simpa [resolveMatched] using ih⟩
    | cons c cs =>
      cases hf : (c :: cs).find? (fun c2 => pyInStr x c2.sha) with
      | none => exact ⟨ms, by simp [resolveMatched, hf, ih]⟩
      | some c2 =>
        refine ⟨{ commit := c2, score := PyVal.int conf, match_type := mts } :: ms, ?_⟩
        have h1 : resolveMatched (mkOracleObj k su st conf reas shas0 mts) (c :: cs)
            (PyVal.str x :: xs.map PyVal.str) =
          match (c :: cs).find? (fun c2 => pyInStr x c2.sha) with
          | some c3 =>
            (match resolveMatched (mkOracleObj k su st conf reas shas0 mts) (c :: cs)
                (xs.map PyVal.str) with
             | .error e => .error e
             | .ok ms2 => .ok ({ commit := c3, score := PyVal.int conf,
                                 match_type := mts } :: ms2))
          | Option.none =>
            resolveMatched (mkOracleObj k su st conf reas shas0 mts) (c :: cs)
              (xs.map PyVal.str) := rfl
        rw [List.map_cons, h1, hf, ih]

/-- Unfolding of buildMatchOne on a well-formed oracle object: every step
except the ticket lookup and the sha resolution reduces definitionally. -/
theorem buildMatchOne_mkOracleObj_nf (i1 : Ticket) (irest : List Ticket)
    (commits : List Commit) (k su st : String) (conf : Int) (reas : String)
    (shas : List String) (mts : PyVal) :
    buildMatchOne (i1 :: irest) commits (mkOracleObj k su st conf reas shas mts) =
      match (i1 :: irest).find? (fun x => pyEqStr (PyVal.str k) x.key) with
      | Option.none => Except.ok Option.none
      | some tk =>
        match resolveMatched (mkOracleObj k su st conf reas shas mts) commits
            (shas.map PyVal.str) with
        | .error e => .error e
        | .ok mobjs =>
          Except.ok (some { ticket := tk,
                            status := PyVal.str st,
                            confidence := PyVal.int conf,
                            reasoning := PyVal.str reas,
                            matched_commits := mobjs,
                            total_matches := mobjs.length }) := rfl

/-- The resolution loop reads the oracle object only through its confidence
and match_types entries. -/
theorem resolveMatched_congr (o1 o2 : PyVal) (commits : List Commit)
    (h1 : pyGetItem o1 "confidence" = pyGetItem o2 "confidence")
    (h2 : pyGet o1 "match_types" (.list []) = pyGet o2 "match_types" (.list [])) :
    ∀ l : List PyVal, resolveMatched o1 commits l = resolveMatched o2 commits l
  | [] => rfl
  | v :: rest => by
    have ih := resolveMatched_congr o1 o2 commits h1 h2 rest
    cases commits with
    | nil => simpa [resolveMatched] using ih
    | cons c cs =>
      cases v with
      | str x =>
        have e1 : resolveMatched o1 (c :: cs) (PyVal.str x :: rest) =
          match (c :: cs).find? (fun c2 => pyInStr x c2.sha) with
          | some c3 =>
            (match pyGetItem o1 "confidence" with
             | .error e => .error e
             | .ok conf =>
               match pyGet o1 "match_types" (.list []) with
               | .error e => .error e
               | .ok mt =>
                 match resolveMatched o1 (c :: cs) rest with
                 | .error e => .error e
                 | .ok ms => .ok ({ commit := c3, score := conf, match_type := mt } :: ms))
          | Option.none => resolveMatched o1 (c :: cs) rest := rfl
        have e2 : resolveMatched o2 (c :: cs) (PyVal.str x :: rest) =
          match (c :: cs).find? (fun c2 => pyInStr x c2.sha) with
          | some c3 =>
            (match pyGetItem o2 "confidence" with
             | .error e => .error e
             | .ok conf =>
               match pyGet o2 "match_types" (.list []) with
               | .error e => .error e
               | .ok mt =>
                 match resolveMatched o2 (c :: cs) rest with
                 | .error e => .error e
                 | .ok ms => .ok ({ commit := c3, score := conf, match_type := mt } :: ms))
          | Option.none => resolveMatched o2 (c :: cs) rest := rfl
        rw [e1, e2, h1, h2, ih]
      | none => rfl
      | bool b => rfl
      | int n => rfl
      | list xs => rfl
      | dict kvs => rfl

/-- A truthy author email turns the per repository commit list into its
substring filtered form. -/
theorem repoCommits_some_filter (fetch : String → CommitFetchOutcome) (fn e : String)
    (he : (e == "") = false) :
    repoCommits fetch (some e) fn =
      (repoCommits fetch Option.none fn).filter
        (fun cd => pyInStr (pyLower e) (pyLower cd.author_email)) := by
  unfold repoCommits
  cases hsplit : ((pySplit fn '/').length != 2) with
  | true => simp [hsplit]
  | false =>
    simp only [hsplit, Bool.false_eq_true, if_false]
    cases fetch fn with
    | raise => rfl
    | strResp s => rfl
    | otherResp => rfl
    | commits cs => simp [emailFilter, he]

/-- An empty author email applies no filter per repository. -/
theorem repoCommits_empty_email (fetch : String → CommitFetchOutcome) (fn : String) :
    repoCommits fetch (some "") fn = repoCommits fetch Option.none fn := by
  unfold repoCommits
  cases hsplit : ((pySplit fn '/').length != 2) with
  | true => simp [hsplit]
  | false =>
    simp only [hsplit, Bool.false_eq_true, if_false]
    cases fetch fn with
    | raise => rfl
    | strResp s => rfl
    | otherResp => rfl
    | commits cs => simp [emailFilter]

/-- C1 (amended): on the fallback path (oracle unavailable or the call or
decode raising) the Matching Engine produces exactly one MatchResult per
input ticket; the unamended claim, one result per ticket regardless of
oracle behaviour, fails because a decodable oracle response with fewer
objects than tickets yields fewer results. -/
theorem c1_fallback_cardinality (assignee_name project_key : String)
    (tickets : List Ticket) (commits : List Commit) (resp : OracleResponse)
    (h : resp = OracleResponse.noClient ∨ resp = OracleResponse.raise) :
    ∃ ms : List Match,
      buildMatches tickets commits
        (analyze_assignee_progress assignee_name tickets commits project_key resp) = .ok ms ∧
      ms.length = tickets.length := by
  obtain ⟨ms, h1, h2, _⟩ :=
    buildMatchesList_fallback tickets commits tickets (fun t ht => ht)
  rcases h with h | h <;> (subst h; exact ⟨ms, h1, h2⟩)

/-- C1 counterexample: with one input ticket and an available oracle that
returns the decodable JSON array with no elements, the engine produces zero
MatchResults, so the cardinality invariant does not hold on the oracle
path. -/
theorem c1_cardinality_counterexample :
    ∃ ms : List Match,
      buildMatches [tkC1] [cmC1]
        (analyze_assignee_progress "Alice" [tkC1] [cmC1] "AL"
          (.value (PyVal.list []))) = .ok ms ∧
      ms.length ≠ [tkC1].length :=
  ⟨[], rfl, by decide⟩

/-- C1 witness: the amended cardinality theorem applied to a concrete one
ticket batch with an unavailable oracle. -/
theorem c1_fallback_cardinality_witness :
    ∃ ms : List Match,
      buildMatches [tkC1] [cmC1]
        (analyze_assignee_progress "Alice" [tkC1] [cmC1] "AL" .noClient) = .ok ms ∧
      ms.length = [tkC1].length :=
  c1_fallback_cardinality "Alice" "AL" [tkC1] [cmC1] .noClient (Or.inl rfl)

/-- C2: with no oracle client configured, analyze_assignee_progress returns
one record per ticket, and every record carries status PENDING, confidence
zero, the standard manual review reasoning text, an empty matched_commits
list and an empty match_types list. -/
theorem c2_oracle_unavailable_pending (assignee_name project_key : String)
    (tickets : List Ticket) (commits : List Commit) :
    analyze_assignee_progress assignee_name tickets commits project_key .noClient =
      PyVal.list (tickets.map fallbackObj) ∧
    ∀ t ∈ tickets,
      pyGetItem (fallbackObj t) "ticket_key" = .ok (.str t.key) ∧
      pyGetItem (fallbackObj t) "status" = .ok (.str "PENDING") ∧
      pyGetItem (fallbackObj t) "confidence" = .ok (.int 0) ∧
      pyGetItem (fallbackObj t) "reasoning" =
        .ok (.str "LLM analysis unavailable - manual review required") ∧
      pyGetItem (fallbackObj t) "matched_commits" = .ok (.list []) ∧
      pyGetItem (fallbackObj t) "match_types" = .ok (.list []) :=
  ⟨rfl, fun _ _ => ⟨rfl, rfl, rfl, rfl, rfl, rfl⟩⟩

/-- C3 (amended): when the oracle is unavailable or the call or the json
decode raises, the engine returns the deterministic fallback results and
the subsequent match building raises nothing; the unamended claim also
covered a response that decodes as JSON but has the wrong shape, and such a
response is passed through and makes the match building raise. -/
theorem c3_fallback_no_raise (assignee_name project_key : String)
    (tickets : List Ticket) (commits : List Commit) (resp : OracleResponse)
    (h : resp = OracleResponse.noClient ∨ resp = OracleResponse.raise) :
    analyze_assignee_progress assignee_name tickets commits project_key resp =
      fallback_analysis tickets ∧
    ∃ ms : List Match,
      buildMatches tickets commits
        (analyze_assignee_progress assignee_name tickets commits project_key resp) =
        .ok ms := by
  obtain ⟨ms, h1, _, _⟩ :=
    buildMatchesList_fallback tickets commits tickets (fun t ht => ht)
  rcases h with h | h <;> (subst h; exact ⟨rfl, ms, h1⟩)

/-- C3 counterexample: an oracle response that decodes to the JSON object
with the single key foo is not the expected array shape; the engine passes
it through instead of falling back, and the match building raises a
TypeError to the caller. -/
theorem c3_shape_counterexample :
    analyze_assignee_progress "Alice" [tkC3] [cmC3] "AL"
      (.value (PyVal.dict [("foo", PyVal.int 1)])) ≠ fallback_analysis [tkC3] ∧
    buildMatches [tkC3] [cmC3]
      (analyze_assignee_progress "Alice" [tkC3] [cmC3] "AL"
        (.value (PyVal.dict [("foo", PyVal.int 1)]))) =
      .error "TypeError: value is not subscriptable by a string" :=
  ⟨by simp [analyze_assignee_progress, fallback_analysis], rfl⟩

/-- C3 witness: the amended tolerance theorem applied to a concrete batch
with a raising oracle call. -/
theorem c3_fallback_no_raise_witness :
    analyze_assignee_progress "Alice" [tkC3] [cmC3] "AL" .raise =
      fallback_analysis [tkC3] ∧
    ∃ ms : List Match,
      buildMatches [tkC3] [cmC3]
        (analyze_assignee_progress "Alice" [tkC3] [cmC3] "AL" .raise) = .ok ms :=
  c3_fallback_no_raise "Alice" "AL" [tkC3] [cmC3] .raise (Or.inr rfl)

/-- C4: for a project key absent from the repository map, analyze_project
returns the error object naming the key, for every tracker response, commit
fetch behaviour, oracle behaviour and status filter alike, so no ticket
fetch influences the outcome and no partial analysis is produced. -/
theorem c4_missing_mapping_error (tracker : TrackerResponse)
    (fetch : String → CommitFetchOutcome) (oracle : Oracle)
    (project_key status_filter : String)
    (h : JIRA_TO_GITHUB_MAP.lookup project_key = Option.none) :
    analyze_project tracker fetch oracle project_key status_filter =
      .ok (.err ("No repository mapping found for " ++ project_key)) := by
  simp [analyze_project, h]

/-- C4 witness: the missing mapping theorem applied to the key ZZ of the
specification example. -/
theorem c4_missing_mapping_error_witness :
    analyze_project (.issues []) fetchC4 oracleC4 "ZZ" "active" =
      .ok (.err ("No repository mapping found for " ++ "ZZ")) :=
  c4_missing_mapping_error (.issues []) fetchC4 oracleC4 "ZZ" "active" rfl

/-- C5 (amended): when the tracker response cannot be decoded, the whole
fetch returns the empty grouping (never partial data) and analyze_project
surfaces the error object with the text No issues found; the unamended
claim, that the fetch fails with a result labelled parse error, fails
because the source catches the decode exception and returns an empty
dictionary instead. -/
theorem c5_parse_failure_empty (fetch : String → CommitFetchOutcome) (oracle : Oracle)
    (project_key status_filter : String)
    (hmap : ((JIRA_TO_GITHUB_MAP.lookup project_key).getD []).isEmpty = false) :
    get_project_issues_by_assignee project_key status_filter .parseFail = [] ∧
    analyze_project .parseFail fetch oracle project_key status_filter =
      .ok (.err "No issues found") := by
  refine ⟨rfl, ?_⟩
  simp [analyze_project, hmap, get_project_issues_by_assignee]

/-- C5 counterexample: on a tracker response whose decode raises, the fetch
returns the empty grouping rather than failing, and the project level
result is the error object reading No issues found, whose text does not
even contain the word parse. -/
theorem c5_parse_error_counterexample :
    get_project_issues_by_assignee "AL" "all" .parseFail = [] ∧
    analyze_project .parseFail fetchC5 oracleC5 "AL" "all" =
      .ok (.err "No issues found") ∧
    pyInStr "parse" "No issues found" = false :=
  ⟨rfl, rfl, rfl⟩

/-- C5 witness: the amended parse failure theorem applied to the mapped
project AL. -/
theorem c5_parse_failure_empty_witness :
    get_project_issues_by_assignee "AL" "all" .parseFail = [] ∧
    analyze_project .parseFail fetchC5 oracleC5 "AL" "all" =
      .ok (.err "No issues found") :=
  c5_parse_failure_empty fetchC5 oracleC5 "AL" "all" rfl

/-- C6: with a non empty author email, the fetched commit list is exactly
the unfiltered fetch filtered by case insensitive substring containment of
the email in the commit author email, so a commit is included if and only
if the containment holds. -/
theorem c6_email_substring_filter (fetch : String → CommitFetchOutcome)
    (repos : List String) (e : String) (h : e ≠ "") :
    get_commits_for_repos fetch repos (some e) =
      (get_commits_for_repos fetch repos Option.none).filter
        (fun cd => pyInStr (pyLower e) (pyLower cd.author_email)) := by
  have he : (e == "") = false := beq_eq_false_iff_ne.mpr h
  induction repos with
  | nil => rfl
  | cons fn rest ih =>
    show repoCommits fetch (some e) fn ++ get_commits_for_repos fetch rest (some e) = _
    rw [show get_commits_for_repos fetch (fn :: rest) Option.none =
          repoCommits fetch Option.none fn ++ get_commits_for_repos fetch rest Option.none
        from rfl,
      List.filter_append, repoCommits_some_filter fetch fn e he, ih]

/-- C6 witness: the filter theorem at a concrete repository with one
matching commit (author email differing only in case) and one commit by
another author, together with the concrete evaluation showing that exactly
the case insensitive match is kept. -/
theorem c6_email_substring_filter_witness :
    ("alice@x.com" : String) ≠ "" ∧
    get_commits_for_repos fetchC6 ["o/r"] (some "alice@x.com") =
      (get_commits_for_repos fetchC6 ["o/r"] Option.none).filter
        (fun cd => pyInStr (pyLower "alice@x.com") (pyLower cd.author_email)) ∧
    get_commits_for_repos fetchC6 ["o/r"] (some "alice@x.com") =
      [mkCommitData "r" "o/r" rcC6a] :=
  ⟨by decide,
   c6_email_substring_filter fetchC6 ["o/r"] "alice@x.com" (by decide),
   rfl⟩

/-- C7: an assignee whose commit fetch returns zero commits is never sent
to the Matching Engine (the result is the same for every oracle behaviour)
and receives the deterministic summary with every ticket pending and zero
commits. -/
theorem c7_zero_commits_short_circuit (fetch : String → CommitFetchOutcome)
    (repos : List String) (project_key assignee : String) (issues : List Ticket)
    (h : get_commits_for_repos fetch repos (issues.head?.map (fun t => t.assignee_email)) = []) :
    ∀ oracle : Oracle,
      analyzeAssignee fetch oracle repos project_key assignee issues =
        .ok { tickets := issues, commits := [], matchList := [],
              summary := { total_tickets := issues.length, completed := 0, likely_done := 0,
                           in_progress := 0, pending := issues.length, total_commits := 0 } } := by
  intro oracle
  simp [analyzeAssignee, h]

/-- C7 witness: the short circuit theorem applied to a five ticket assignee
whose repository is inaccessible, matching the specification example
summary of five pending tickets and zero commits. -/
theorem c7_zero_commits_short_circuit_witness :
    analyzeAssignee fetchC7 oracleC7 ["o/r"] "AL" "Carol"
        [tkC7, tkC7, tkC7, tkC7, tkC7] =
      .ok { tickets := [tkC7, tkC7, tkC7, tkC7, tkC7], commits := [], matchList := [],
            summary := { total_tickets := 5, completed := 0, likely_done := 0,
                         in_progress := 0, pending := 5, total_commits := 0 } } :=
  c7_zero_commits_short_circuit fetchC7 ["o/r"] "AL" "Carol"
    [tkC7, tkC7, tkC7, tkC7, tkC7] rfl oracleC7

/-- C8: a short sha listed by the oracle that resolves to no commit of the
batch is dropped without an exception: the result is unchanged when the sha
is removed from the oracle object, and whenever the object resolves to a
ticket the produced MatchResult keeps the oracle status and confidence. -/
theorem c8_unresolved_sha_dropped (i1 : Ticket) (irest : List Ticket)
    (commits : List Commit) (k su st : String) (conf : Int) (reas : String)
    (shas : List String) (mts : PyVal) (s : String)
    (hmem : s ∈ shas) (hno : ∀ c ∈ commits, pyInStr s c.sha = false) :
    buildMatchOne (i1 :: irest) commits (mkOracleObj k su st conf reas shas mts) =
      buildMatchOne (i1 :: irest) commits
        (mkOracleObj k su st conf reas (shas.filter (fun x => !(x == s))) mts) ∧
    ∀ tk, (i1 :: irest).find? (fun x => pyEqStr (PyVal.str k) x.key) = some tk →
      ∃ mobjs : List MatchedCommitObj,
        buildMatchOne (i1 :: irest) commits (mkOracleObj k su st conf reas shas mts) =
          Except.ok (some { ticket := tk,
                            status := PyVal.str st,
                            confidence := PyVal.int conf,
                            reasoning := PyVal.str reas,
                            matched_commits := mobjs,
                            total_matches := mobjs.length }) := by
  have hdrop := resolveMatched_drop (mkOracleObj k su st conf reas shas mts) commits s hno shas
  have hcongr := resolveMatched_congr (mkOracleObj k su st conf reas shas mts)
    (mkOracleObj k su st conf reas (shas.filter (fun x => !(x == s))) mts) commits rfl rfl
    ((shas.filter (fun x => !(x == s))).map PyVal.str)
  have hdrop2 : resolveMatched (mkOracleObj k su st conf reas shas mts) commits
      (shas.map PyVal.str) =
      resolveMatched (mkOracleObj k su st conf reas
        (shas.filter (fun x => !(x == s))) mts) commits
        ((shas.filter (fun x => !(x == s))).map PyVal.str) :=
    hdrop.trans hcongr
  constructor
  · rw [buildMatchOne_mkOracleObj_nf, buildMatchOne_mkOracleObj_nf, hdrop2]
  · intro tk hfind
    obtain ⟨mobjs, hres⟩ :=
      resolveMatched_mkOracleObj_ok k su st conf reas shas mts commits shas
    exact ⟨mobjs, by rw [buildMatchOne_mkOracleObj_nf, hfind, hres]⟩

/-- C8 witness: the drop theorem at a concrete batch whose oracle object
lists one fabricated sha and one real sha, together with the concrete
evaluation showing the fabricated sha dropped, the real one resolved, and
status COMPLETED with confidence 95 kept. -/
theorem c8_unresolved_sha_dropped_witness :
    ("zzzzzzz" : String) ∈ (["zzzzzzz", "abc1234"] : List String) ∧
    (∀ c ∈ [cmC8], pyInStr "zzzzzzz" c.sha = false) ∧
    (buildMatchOne [tkC8] [cmC8]
        (mkOracleObj "AL-8" "Wire search box" "COMPLETED" 95 "explicit reference found"
          ["zzzzzzz", "abc1234"] (.list [.str "explicit_reference"])) =
      buildMatchOne [tkC8] [cmC8]
        (mkOracleObj "AL-8" "Wire search box" "COMPLETED" 95 "explicit reference found"
          ((["zzzzzzz", "abc1234"] : List String).filter (fun x => !(x == "zzzzzzz")))
          (.list [.str "explicit_reference"])) ∧
      ∀ tk, [tkC8].find? (fun x => pyEqStr (PyVal.str "AL-8") x.key) = some tk →
        ∃ mobjs : List MatchedCommitObj,
          buildMatchOne [tkC8] [cmC8]
            (mkOracleObj "AL-8" "Wire search box" "COMPLETED" 95 "explicit reference found"
              ["zzzzzzz", "abc1234"] (.list [.str "explicit_reference"])) =
            Except.ok (some { ticket := tk,
                              status := PyVal.str "COMPLETED",
                              confidence := PyVal.int 95,
                              reasoning := PyVal.str "explicit reference found",
                              matched_commits := mobjs,
                              total_matches := mobjs.length })) ∧
    buildMatchOne [tkC8] [cmC8]
        (mkOracleObj "AL-8" "Wire search box" "COMPLETED" 95 "explicit reference found"
          ["zzzzzzz", "abc1234"] (.list [.str "explicit_reference"])) =
      Except.ok (some { ticket := tkC8,
                        status := PyVal.str "COMPLETED",
                        confidence := PyVal.int 95,
                        reasoning := PyVal.str "explicit reference found",
                        matched_commits := [{ commit := cmC8, score := PyVal.int 95,
                                              match_type := PyVal.list
                                                [.str "explicit_reference"] }],
                        total_matches := 1 }) :=
  ⟨by decide, by decide,
   c8_unresolved_sha_dropped tkC8 [] [cmC8] "AL-8" "Wire search box" "COMPLETED" 95
     "explicit reference found" ["zzzzzzz", "abc1234"]
     (.list [.str "explicit_reference"]) "zzzzzzz" (by decide) (by decide),
   rfl⟩

/-- C9 (amended): on the fallback path every MatchResult has status PENDING
(one of the four tiers) and integer confidence zero, inside the PENDING
band of zero to twenty nine; the unamended claim, that every MatchResult of
any run has confidence in the range and one of the four statuses, fails
because oracle supplied values are stored without validation. -/
theorem c9_fallback_band (assignee_name project_key : String)
    (tickets : List Ticket) (commits : List Commit) (resp : OracleResponse)
    (h : resp = OracleResponse.noClient ∨ resp = OracleResponse.raise) :
    ∃ ms : List Match,
      buildMatches tickets commits
        (analyze_assignee_progress assignee_name tickets commits project_key resp) = .ok ms ∧
      ∀ m ∈ ms, m.status = PyVal.str "PENDING" ∧ m.confidence = PyVal.int 0 ∧
        "PENDING" ∈ (["COMPLETED", "LIKELY_DONE", "IN_PROGRESS", "PENDING"] : List String) ∧
        (0 : Int) ≤ 0 ∧ (0 : Int) ≤ 29 := by
  obtain ⟨ms, h1, _, h3⟩ :=
    buildMatchesList_fallback tickets commits tickets (fun t ht => ht)
  rcases h with h | h <;>
    (subst h
     exact ⟨ms, h1, fun m hm =>
       ⟨(h3 m hm).1, (h3 m hm).2.1, by decide, le_refl 0, by decide⟩⟩)

/-- C9 counterexample: an oracle object with status NONSENSE and confidence
150 flows into the produced MatchResult unchanged, so the status is outside
the four tiers and the confidence is outside the range zero to one
hundred. -/
theorem c9_band_counterexample :
    buildMatches [tkC9] [cmC9]
      (analyze_assignee_progress "Alice" [tkC9] [cmC9] "AL"
        (.value (PyVal.list [objC9]))) =
      .ok [{ ticket := tkC9, status := PyVal.str "NONSENSE",
             confidence := PyVal.int 150, reasoning := PyVal.str "overconfident",
             matched_commits := [], total_matches := 0 }] ∧
    ("NONSENSE" : String) ∉
      (["COMPLETED", "LIKELY_DONE", "IN_PROGRESS", "PENDING"] : List String) ∧
    ¬ ((150 : Int) ≤ 100) :=
  ⟨rfl, by decide, by decide⟩

/-- C9 witness: the fallback band theorem applied to a concrete batch with
an unavailable oracle. -/
theorem c9_fallback_band_witness :
    ∃ ms : List Match,
      buildMatches [tkC9] [cmC9]
        (analyze_assignee_progress "Alice" [tkC9] [cmC9] "AL" .noClient) = .ok ms ∧
      ∀ m ∈ ms, m.status = PyVal.str "PENDING" ∧ m.confidence = PyVal.int 0 ∧
        "PENDING" ∈ (["COMPLETED", "LIKELY_DONE", "IN_PROGRESS", "PENDING"] : List String) ∧
        (0 : Int) ≤ 0 ∧ (0 : Int) ≤ 29 :=
  c9_fallback_band "Alice" "AL" [tkC9] [cmC9] .noClient (Or.inl rfl)

/-- C10: an empty author email applies no filtering at all: the fetch
equals the fetch with no email, in particular when the email comes from a
first ticket whose assignee_email field is empty (as for the Unassigned
bucket), and every commit of every accessible repository of the list is a
member of the result. -/
theorem c10_empty_email_unfiltered (fetch : String → CommitFetchOutcome)
    (repos : List String) :
    get_commits_for_repos fetch repos (some "") =
      get_commits_for_repos fetch repos Option.none ∧
    (∀ issues : List Ticket, ∀ t0 : Ticket, issues.head? = some t0 →
      t0.assignee_email = "" →
      get_commits_for_repos fetch repos (issues.head?.map (fun t => t.assignee_email)) =
        get_commits_for_repos fetch repos Option.none) ∧
    ∀ fn ∈ repos, ∀ cd ∈ repoCommits fetch Option.none fn,
      cd ∈ get_commits_for_repos fetch repos (some "") := by
  have hmain : ∀ rs : List String,
      get_commits_for_repos fetch rs (some "") = get_commits_for_repos fetch rs Option.none := by
    intro rs
    induction rs with
    | nil => rfl
    | cons fn rest ih =>
      show repoCommits fetch (some "") fn ++ get_commits_for_repos fetch rest (some "") = _
      rw [repoCommits_empty_email, ih]
      rfl
  refine ⟨hmain repos, ?_, ?_⟩
  · intro issues t0 hh he
    rw [hh]
    simp only [Option.map_some']
    rw [he, hmain repos]
  · intro fn hfn cd hcd
    rw [hmain repos]
    induction repos with
    | nil => exact absurd hfn (List.not_mem_nil fn)
    | cons g rest ih =>
      rw [show get_commits_for_repos fetch (g :: rest) Option.none =
            repoCommits fetch Option.none g ++ get_commits_for_repos fetch rest Option.none
          from rfl]
      rcases List.mem_cons.mp hfn with h1 | h2
      · subst h1
        exact List.mem_append_left _ hcd
      · exact List.mem_append_right _ (ih h2)
